import Mathlib

/-!
Verification of the WQM client's request/response data-shaping boundary.

The repository is a React client that collects fifteen water-quality
measurements, posts them to an evaluation endpoint, and renders the result.
We embed the three specified pieces:

* the parameter schema (`parameters`, `parameters_v2`);
* the form state adapter (`handleChange`, `handleSubmit` for the main
  variant in src/client/src/components/WaterQualityForm.jsx, and
  `handleChange_v2` / `processedFormData` for the variant in
  src/unnamed/part_000);
* the evaluation client (`evaluateWaterQuality`, `classifyError`, modelling
  the axios error taxonomy of src/client/src/services/api.js).

JavaScript numbers are modelled as exact rationals plus an explicit NaN;
`parseFloat` is modelled after the ECMAScript base-10 decimal grammar
(longest numeric prefix, NaN when no digits parse; Infinity literals and
non-ASCII whitespace are outside the modelled input range). JS objects used
as string-keyed records are modelled as association lists with
insert-or-update (`objInsert`), preserving JS insertion-order semantics.
-/

namespace WQM

/-- A JavaScript value that can appear in the form state or the request
payload: `null`, the empty string sentinel `''`, `NaN`, or a finite number
(modelled exactly as a rational). -/
inductive JsVal where
  | null : JsVal
  | emptyStr : JsVal
  | nan : JsVal
  | num : ℚ → JsVal
deriving DecidableEq

/-- Value of a decimal digit string, most significant first. -/
def digitsToNat (ds : List Char) : ℕ :=
  ds.foldl (fun a c => 10 * a + (c.toNat - 48)) 0

/-- Parse an optionally signed run of decimal digits (the exponent body of
the ECMAScript decimal grammar); yields 0 when no digit is present, in which
case `parseFloat` ignores the exponent marker (as JS does for "1e"). -/
def parseSignedDigits (cs : List Char) : ℤ :=
  let (sgn, cs1) :=
    match cs with
    | '-' :: rest => ((-1 : ℤ), rest)
    | '+' :: rest => ((1 : ℤ), rest)
    | _ => ((1 : ℤ), cs)
  let ds := cs1.takeWhile Char.isDigit
  if ds.isEmpty then 0 else sgn * (digitsToNat ds : ℤ)

/-- Exponent part (`e`/`E` followed by signed digits); 0 when absent. -/
def parseExponent (cs : List Char) : ℤ :=
  match cs with
  | 'e' :: rest => parseSignedDigits rest
  | 'E' :: rest => parseSignedDigits rest
  | _ => 0

/-- `10 ^ n` as an integer, by plain recursion so the kernel evaluates it. -/
def pow10 : ℕ → ℤ
  | 0 => 1
  | n + 1 => 10 * pow10 n

/-- The exact rational value of a decimal literal with sign `sgn`, mantissa
digits worth `m` of which the last `scale` are fractional, and decimal
exponent `e`: `sgn * m * 10 ^ (e - scale)`. -/
def decToRat (sgn : ℤ) (m : ℕ) (scale : ℕ) (e : ℤ) : ℚ :=
  let p : ℤ := e - (scale : ℤ)
  if 0 ≤ p then Rat.divInt (sgn * (m : ℤ) * pow10 p.toNat) 1
  else Rat.divInt (sgn * (m : ℤ)) (pow10 (-p).toNat)

/-- Model of JavaScript `parseFloat`: skip leading whitespace, then parse
the longest prefix matching `[+-]? digits [. digits]? [(e|E) [+-]? digits]?`;
the result is `NaN` when no mantissa digit is found, otherwise the exact
rational value of the parsed prefix. -/
def parseFloat (s : String) : JsVal :=
  let cs := s.data.dropWhile Char.isWhitespace
  let (sgn, cs1) :=
    match cs with
    | '-' :: rest => ((-1 : ℤ), rest)
    | '+' :: rest => ((1 : ℤ), rest)
    | _ => ((1 : ℤ), cs)
  let intDs := cs1.takeWhile Char.isDigit
  let cs2 := cs1.dropWhile Char.isDigit
  let (fracDs, cs3) :=
    match cs2 with
    | '.' :: rest => (rest.takeWhile Char.isDigit, rest.dropWhile Char.isDigit)
    | _ => (([] : List Char), cs2)
  if intDs.isEmpty && fracDs.isEmpty then JsVal.nan
  else
    JsVal.num
      (decToRat sgn (digitsToNat (intDs ++ fracDs)) fracDs.length
        (parseExponent cs3))

/-- JS object update `{...obj, [k]: v}`: replace the value of an existing
key in place, else append the new key at the end (JS string-keyed objects
preserve insertion order). -/
def objInsert (fd : List (String × JsVal)) (k : String) (v : JsVal) :
    List (String × JsVal) :=
  if fd.any (fun p => p.1 == k) then
    fd.map (fun p => if p.1 = k then (k, v) else p)
  else
    fd ++ [(k, v)]

/-- `handleChange` of src/client/src/components/WaterQualityForm.jsx
(lines 17-20): `setFormData({ ...formData, [name]: value ? parseFloat(value)
: null })` — the only falsy string is `""`, so an empty input stores `null`
and any other input stores `parseFloat(value)` immediately. -/
def handleChange (formData : List (String × JsVal)) (name value : String) :
    List (String × JsVal) :=
  objInsert formData name (if value = "" then JsVal.null else parseFloat value)

/-- `handleChange` of src/unnamed/part_000 (lines 17-23):
`[name]: value === '' ? '' : parseFloat(value)`. -/
def handleChange_v2 (formData : List (String × JsVal)) (name value : String) :
    List (String × JsVal) :=
  objInsert formData name (if value = "" then JsVal.emptyStr else parseFloat value)

/-- The payload the main variant dispatches: `evaluateWaterQuality(formData)`
passes the form state unchanged (WaterQualityForm.jsx line 27). -/
def jsxPayload (formData : List (String × JsVal)) : List (String × JsVal) :=
  formData

/-- The per-entry coercion of `processedFormData`: `value === '' ? null :
value` (strict equality, so `0` and `NaN` are untouched). -/
def submitCoerce (v : JsVal) : JsVal :=
  if v = JsVal.emptyStr then JsVal.null else v

/-- `processedFormData` of src/unnamed/part_000 (lines 30-35):
`Object.entries(formData).map(([key, value]) => [key, value === '' ? null :
value])` re-assembled with `Object.fromEntries` — keys and order are kept,
only the `''` sentinel becomes `null`. -/
def processedFormData (formData : List (String × JsVal)) :
    List (String × JsVal) :=
  formData.map (fun p => (p.1, submitCoerce p.2))

/-- Evaluation result shape `{ quality_score, report, graph }` (consumed by
WaterQualityReport.jsx line 5). -/
structure EvalResult where
  quality_score : ℚ
  report : String
  graph : String
deriving DecidableEq

/-- A service HTTP response as seen through an axios error: status code and
the optional `data.detail` string of the body. -/
structure HttpResponse where
  status : ℕ
  detail : Option String
deriving DecidableEq

/-- An axios request error: `response` is present when the service answered
with a non-2xx status; `request` is true when the request was dispatched
(so `response = none ∧ request = true` means no response arrived, and
`response = none ∧ request = false` means the request could not be set up). -/
structure AxiosError where
  response : Option HttpResponse
  request : Bool
deriving DecidableEq

def evalFallbackMessage : String :=
  "An error occurred while evaluating water quality."

def noResponseMessage : String :=
  "The server did not respond. Please check your connection."

def setupFailureMessage : String :=
  "An error occurred while setting up the request."

/-- `error.response.data.detail || fallback` (api.js line 107): the detail
string when present and truthy; the empty string is falsy in JS, so an
empty detail also falls back. -/
def serviceErrorMessage (resp : HttpResponse) : String :=
  match resp.detail with
  | some d => if d = "" then evalFallbackMessage else d
  | none => evalFallbackMessage

/-- The `if (error.response) / else if (error.request) / else` chain of
`evaluateWaterQuality` (api.js lines 104-114), in source order. -/
def classifyError (e : AxiosError) : String :=
  match e.response with
  | some resp => serviceErrorMessage resp
  | none => if e.request then noResponseMessage else setupFailureMessage

/-- The single transport exchange performed by one call of
`evaluateWaterQuality`: either the service answered 2xx with a result, or
axios raised an error. -/
inductive TransportOutcome where
  | success : EvalResult → TransportOutcome
  | failure : AxiosError → TransportOutcome
deriving DecidableEq

/-- `evaluateWaterQuality` of src/client/src/services/api.js: return
`response.data` on success, else throw a single `Error` whose message is
chosen by the classification chain. -/
def evaluateWaterQuality : TransportOutcome → Except String EvalResult
  | .success r => .ok r
  | .failure e => .error (classifyError e)

/-- The three state hooks of `WaterQualityForm`. -/
structure FormState where
  formData : List (String × JsVal)
  error : String
  loading : Bool
deriving DecidableEq

/-- Observable trace of one `handleSubmit` run: the state right after
`setLoading(true); setError('')`, the payload passed to the evaluation
client, the state after the `finally` block, and the argument of the
`onResult` callback when it was invoked. -/
structure SubmitTrace where
  startState : FormState
  dispatched : List (String × JsVal)
  finalState : FormState
  delivered : Option EvalResult
deriving DecidableEq

/-- `handleSubmit` of WaterQualityForm.jsx (lines 22-34): set loading,
clear the error, dispatch `formData` as the payload, then either hand the
result to `onResult` or store the error message; `finally` clears loading. -/
def handleSubmit (s : FormState) (outcome : TransportOutcome) : SubmitTrace :=
  let s1 : FormState := { s with loading := true, error := "" }
  let payload := jsxPayload s1.formData
  match evaluateWaterQuality outcome with
  | .ok r => ⟨s1, payload, { s1 with loading := false }, some r⟩
  | .error msg => ⟨s1, payload, { s1 with error := msg, loading := false }, none⟩

/-- `handleSubmit` of src/unnamed/part_000 (lines 25-43): identical control
flow, but the dispatched payload is `processedFormData`. -/
def handleSubmit_v2 (s : FormState) (outcome : TransportOutcome) : SubmitTrace :=
  let s1 : FormState := { s with loading := true, error := "" }
  let payload := processedFormData s1.formData
  match evaluateWaterQuality outcome with
  | .ok r => ⟨s1, payload, { s1 with loading := false }, some r⟩
  | .error msg => ⟨s1, payload, { s1 with error := msg, loading := false }, none⟩

/-- The `evaluationResult` state of App (src/unnamed/part_001). -/
structure AppState where
  evaluationResult : Option EvalResult
deriving DecidableEq

/-- `handleResult` of App: store the delivered result (the previous state
is discarded wholesale). -/
def handleResult (_a : AppState) (r : EvalResult) : AppState :=
  { evaluationResult := some r }

/-- One submission as seen from App: run `handleSubmit`; `onResult` (wired
to `handleResult`) fires exactly when a result was delivered. -/
def appStep (a : AppState) (s : FormState) (outcome : TransportOutcome) :
    AppState × SubmitTrace :=
  let t := handleSubmit s outcome
  match t.delivered with
  | some r => (handleResult a r, t)
  | none => (a, t)

/-- A parameter definition of WaterQualityForm.jsx (lines 36-52). -/
structure ParameterDef where
  name : String
  label : String
  type : String
deriving DecidableEq

/-- The fifteen parameter definitions of WaterQualityForm.jsx lines 36-52. -/
def parameters : List ParameterDef :=
  [⟨"Temperature", "Temperature (°C)", "number"⟩,
   ⟨"pH", "pH", "number"⟩,
   ⟨"Turbidity", "Turbidity (NTU)", "number"⟩,
   ⟨"DissolvedOxygen", "Dissolved Oxygen (mg/L)", "number"⟩,
   ⟨"Conductivity", "Conductivity (µS/cm)", "number"⟩,
   ⟨"TotalDissolvedSolids", "Total Dissolved Solids (mg/L)", "number"⟩,
   ⟨"Nitrate", "Nitrate (mg/L)", "number"⟩,
   ⟨"Phosphate", "Phosphate (mg/L)", "number"⟩,
   ⟨"TotalColiforms", "Total Coliforms (CFU/100mL)", "number"⟩,
   ⟨"Ecoli", "E. coli (CFU/100mL)", "number"⟩,
   ⟨"BOD", "BOD (mg/L)", "number"⟩,
   ⟨"COD", "COD (mg/L)", "number"⟩,
   ⟨"Hardness", "Hardness (mg/L as CaCO3)", "number"⟩,
   ⟨"Alkalinity", "Alkalinity (mg/L as CaCO3)", "number"⟩,
   ⟨"Iron", "Iron (mg/L)", "number"⟩]

/-- A parameter definition of src/unnamed/part_000 lines 45-61 (that
variant has no type field). -/
structure ParameterDefNL where
  name : String
  label : String
deriving DecidableEq

/-- The fifteen parameter definitions of src/unnamed/part_000 lines 45-61. -/
def parameters_v2 : List ParameterDefNL :=
  [⟨"Temperature", "Temperature (°C)"⟩,
   ⟨"pH", "pH"⟩,
   ⟨"Turbidity", "Turbidity (NTU)"⟩,
   ⟨"DissolvedOxygen", "Dissolved Oxygen (mg/L)"⟩,
   ⟨"Conductivity", "Conductivity (µS/cm)"⟩,
   ⟨"TotalDissolvedSolids", "Total Dissolved Solids (mg/L)"⟩,
   ⟨"Nitrate", "Nitrate (mg/L)"⟩,
   ⟨"Phosphate", "Phosphate (mg/L)"⟩,
   ⟨"TotalColiforms", "Total Coliforms (CFU/100mL)"⟩,
   ⟨"Ecoli", "E. coli (CFU/100mL)"⟩,
   ⟨"BOD", "BOD (mg/L)"⟩,
   ⟨"COD", "COD (mg/L)"⟩,
   ⟨"Hardness", "Hardness (mg/L as CaCO3)"⟩,
   ⟨"Alkalinity", "Alkalinity (mg/L as CaCO3)"⟩,
   ⟨"Iron", "Iron (mg/L)"⟩]

/-- The fifteen parameter keys, in schema order (the wire contract). -/
def parameterKeys : List String :=
  ["Temperature", "pH", "Turbidity", "DissolvedOxygen", "Conductivity",
   "TotalDissolvedSolids", "Nitrate", "Phosphate", "TotalColiforms", "Ecoli",
   "BOD", "COD", "Hardness", "Alkalinity", "Iron"]

/-- A concrete evaluation result used to instantiate witnesses. -/
def sampleResult : EvalResult :=
  ⟨Rat.divInt 165 2, "Good", "iVBORw0KGgo="⟩

example : parseFloat "7.2" = JsVal.num (Rat.divInt 36 5) := by decide
example : parseFloat "abc" = JsVal.nan := by decide
example : parseFloat "0" = JsVal.num 0 := by decide
example : parseFloat "3." = JsVal.num 3 := by decide
example : parseFloat "-" = JsVal.nan := by decide
example : parseFloat "" = JsVal.nan := by decide
example : parseFloat "1e3" = JsVal.num 1000 := by decide
example : parseFloat "-2.5" = JsVal.num (Rat.divInt (-5) 2) := by decide

/-- Failure class 1 of the api.js chain: the service answered with a
non-success status (`error.response` is present). -/
def isServiceError (e : AxiosError) : Prop :=
  e.response.isSome = true

/-- Failure class 2: the request was dispatched but no response arrived. -/
def isNoResponse (e : AxiosError) : Prop :=
  e.response = none ∧ e.request = true

/-- Failure class 3: the request could not even be set up. -/
def isSetupFailure (e : AxiosError) : Prop :=
  e.response = none ∧ e.request = false

theorem lookup_map_value (g : JsVal → JsVal) (fd : List (String × JsVal))
    (k : String) :
    (fd.map (fun p => (p.1, g p.2))).lookup k = (fd.lookup k).map g := by
  induction fd with
  | nil => rfl
  | cons p fd ih =>
    obtain ⟨a, b⟩ := p
    by_cases hk : k = a
    · subst hk; simp [List.lookup]
    · have hb : (k == a) = false := beq_eq_false_iff_ne.mpr hk
      simp [List.lookup, hb, ih]

theorem lookup_replace (fd : List (String × JsVal)) (k : String) (v : JsVal)
    (h : (fd.any fun p => p.1 == k) = true) :
    (fd.map (fun p => if p.1 = k then (k, v) else p)).lookup k = some v := by
  induction fd with
  | nil => simp at h
  | cons p fd ih =>
    obtain ⟨a, b⟩ := p
    simp only [List.any_cons, Bool.or_eq_true, beq_iff_eq] at h
    by_cases hk : a = k
    · subst hk
      rw [List.map_cons, if_pos rfl]
      simp [List.lookup]
    · rw [List.map_cons, if_neg hk]
      have h2 : (fd.any fun p => p.1 == k) = true := h.resolve_left hk
      have hb : (k == a) = false := beq_eq_false_iff_ne.mpr (Ne.symm hk)
      simp [List.lookup, hb, ih h2]

theorem lookup_append (fd : List (String × JsVal)) (k : String) (v : JsVal)
    (h : (fd.any fun p => p.1 == k) = false) :
    (fd ++ [(k, v)]).lookup k = some v := by
  induction fd with
  | nil => simp [List.lookup]
  | cons p fd ih =>
    obtain ⟨a, b⟩ := p
    simp only [List.any_cons, Bool.or_eq_false_iff, beq_eq_false_iff_ne] at h
    have hb : (k == a) = false := beq_eq_false_iff_ne.mpr (Ne.symm h.1)
    simp [List.lookup, hb, ih h.2]

theorem lookup_objInsert_self (fd : List (String × JsVal)) (k : String)
    (v : JsVal) :
    (objInsert fd k v).lookup k = some v := by
  unfold objInsert
  by_cases h : (fd.any fun p => p.1 == k) = true
  · simp only [h, if_true]
    exact lookup_replace fd k v h
  · rw [Bool.not_eq_true] at h
    simp only [h, Bool.false_eq_true, if_false]
    exact lookup_append fd k v h

/-- Claim C1 (code bug evidence): with the non-numeric input "abc" typed
into the Temperature field, `handleChange` stores `NaN`, `handleSubmit`
dispatches a payload whose Temperature entry is `NaN`, and the submission
is not rejected — on a successful transport outcome the result is delivered.
The part_000 variant behaves the same after `processedFormData`. There is no
validation step anywhere between the form state and the dispatched call. -/
theorem c1_nan_payload_dispatched :
    (handleChange [] "Temperature" "abc").lookup "Temperature"
      = some JsVal.nan ∧
    (handleSubmit ⟨handleChange [] "Temperature" "abc", "", false⟩
        (TransportOutcome.success sampleResult)).dispatched.lookup
        "Temperature" = some JsVal.nan ∧
    (handleSubmit ⟨handleChange [] "Temperature" "abc", "", false⟩
        (TransportOutcome.success sampleResult)).delivered
      = some sampleResult ∧
    (processedFormData (handleChange_v2 [] "Temperature" "abc")).lookup
        "Temperature" = some JsVal.nan := by
  refine ⟨by decide, by decide, ?_, by decide⟩
  rfl

/-- Claim C2 (counterexample): in the initial Raw Form State (every key
absent), the payload dispatched by `handleSubmit` omits the key
"Temperature" entirely instead of containing it with value `null`; the
part_000 `processedFormData` likewise produces an empty payload. -/
theorem c2_counterexample :
    (handleSubmit ⟨[], "", false⟩
        (TransportOutcome.success sampleResult)).dispatched.lookup
        "Temperature" = none ∧
    processedFormData [] = [] := by
  exact ⟨rfl, rfl⟩

/-- Claim C2 (amended): if the Raw Form State entry for a key is present
and empty, the payload contains that key with value `null` (in the main
variant the emptied field is already stored as `null`; in the part_000
variant the `''` sentinel is mapped to `null` at submission) — never `0`
and never `NaN`; a key that is absent from Raw Form State is omitted from
the payload. -/
theorem c2_empty_entries_null (fd : List (String × JsVal)) (k : String) :
    (fd.lookup k = some JsVal.null →
      (jsxPayload fd).lookup k = some JsVal.null) ∧
    (fd.lookup k = some JsVal.emptyStr →
      (processedFormData fd).lookup k = some JsVal.null) ∧
    (fd.lookup k = none →
      (jsxPayload fd).lookup k = none ∧
      (processedFormData fd).lookup k = none) := by
  refine ⟨fun h => h, fun h => ?_, fun h => ⟨h, ?_⟩⟩
  · rw [processedFormData, lookup_map_value submitCoerce fd k, h]
    rfl
  · rw [processedFormData, lookup_map_value submitCoerce fd k, h]
    rfl

/-- Claim C2 (amended) at concrete inputs: an emptied Temperature field
yields a `null` payload entry in the main variant, and an emptied pH field
yields a `null` payload entry in the part_000 variant. -/
theorem c2_empty_entries_null_witness :
    (jsxPayload [("Temperature", JsVal.null)]).lookup "Temperature"
      = some JsVal.null ∧
    (processedFormData [("pH", JsVal.emptyStr)]).lookup "pH"
      = some JsVal.null :=
  ⟨(c2_empty_entries_null [("Temperature", JsVal.null)] "Temperature").1
      (by decide),
   (c2_empty_entries_null [("pH", JsVal.emptyStr)] "pH").2.1 (by decide)⟩

/-- Claim C3 (counterexample): `handleChange` parses at field-change time
rather than storing the raw string verbatim — typing "3." stores the number
3 (indistinguishable from having typed "3"), and typing "-" stores `NaN`
(indistinguishable from having typed "abc"), so partially typed numbers are
not preserved while typing. -/
theorem c3_counterexample :
    handleChange [] "Temperature" "3." = [("Temperature", JsVal.num 3)] ∧
    handleChange [] "Temperature" "3."
      = handleChange [] "Temperature" "3" ∧
    handleChange [] "Temperature" "-" = [("Temperature", JsVal.nan)] ∧
    handleChange [] "Temperature" "-"
      = handleChange [] "Temperature" "abc" := by
  refine ⟨by decide, by decide, by decide, by decide⟩

/-- Claim C3 (amended): `handleChange` coerces immediately — a non-empty
raw string is stored as `parseFloat(rawValue)` (a number when a numeric
prefix parses, `NaN` otherwise), and the empty string is stored as the
empty sentinel (`null` in the main variant, `''` in the part_000 variant);
no raw string is kept, and no coercion is deferred to submission time. -/
theorem c3_change_parses_immediately (fd : List (String × JsVal))
    (k v : String) (h : v ≠ "") :
    (handleChange fd k v).lookup k = some (parseFloat v) ∧
    (handleChange_v2 fd k v).lookup k = some (parseFloat v) ∧
    (handleChange fd k "").lookup k = some JsVal.null ∧
    (handleChange_v2 fd k "").lookup k = some JsVal.emptyStr := by
  refine ⟨?_, ?_, ?_, ?_⟩
  · rw [handleChange, if_neg h]
    exact lookup_objInsert_self fd k (parseFloat v)
  · rw [handleChange_v2, if_neg h]
    exact lookup_objInsert_self fd k (parseFloat v)
  · rw [handleChange, if_pos rfl]
    exact lookup_objInsert_self fd k JsVal.null
  · rw [handleChange_v2, if_pos rfl]
    exact lookup_objInsert_self fd k JsVal.emptyStr

/-- Claim C3 (amended) at a concrete input: typing "3." into pH stores the
parsed number 3 in both variants, and emptying the field stores the
respective sentinel. -/
theorem c3_change_parses_immediately_witness :
    (handleChange [] "pH" "3.").lookup "pH" = some (JsVal.num 3) ∧
    (handleChange_v2 [] "pH" "3.").lookup "pH" = some (JsVal.num 3) ∧
    (handleChange [] "pH" "").lookup "pH" = some JsVal.null ∧
    (handleChange_v2 [] "pH" "").lookup "pH" = some JsVal.emptyStr := by
  obtain ⟨h1, h2, h3, h4⟩ :=
    c3_change_parses_immediately [] "pH" "3." (by decide)
  exact ⟨h1.trans (by decide), h2.trans (by decide), h3, h4⟩

/-- Claim C4 (confirmed): when the raw input string parses as a base-10
floating-point number, the payload entry built at submission equals exactly
the parsed number — in the main variant the parsed number flows through
`formData` unchanged, and in the part_000 variant `processedFormData` keeps
it (strict equality leaves `0` untouched), so it is never `null` and never
omitted. -/
theorem c4_parsed_number_in_payload (fd : List (String × JsVal))
    (k v : String) (q : ℚ) (h : parseFloat v = JsVal.num q) :
    (jsxPayload (handleChange fd k v)).lookup k = some (JsVal.num q) ∧
    (processedFormData (handleChange_v2 fd k v)).lookup k
      = some (JsVal.num q) := by
  have hv : v ≠ "" := by
    intro he
    have hnan : parseFloat "" = JsVal.nan := by decide
    rw [he, hnan] at h
    exact JsVal.noConfusion h
  constructor
  · rw [jsxPayload, handleChange, if_neg hv, h]
    exact lookup_objInsert_self fd k (JsVal.num q)
  · rw [processedFormData, lookup_map_value submitCoerce (handleChange_v2 fd k v) k,
      handleChange_v2, if_neg hv, h,
      lookup_objInsert_self fd k (JsVal.num q)]
    rfl

/-- Claim C4 at concrete inputs: "7.2" yields the payload entry 36/5
(exactly 7.2) in the main variant, and "0" yields the payload entry 0 (not
`null`) in the part_000 variant. -/
theorem c4_parsed_number_in_payload_witness :
    (jsxPayload (handleChange [] "pH" "7.2")).lookup "pH"
      = some (JsVal.num (Rat.divInt 36 5)) ∧
    (processedFormData (handleChange_v2 [] "Iron" "0")).lookup "Iron"
      = some (JsVal.num 0) :=
  ⟨(c4_parsed_number_in_payload [] "pH" "7.2" (Rat.divInt 36 5)
      (by decide)).1,
   (c4_parsed_number_in_payload [] "Iron" "0" 0 (by decide)).2⟩

/-- Claim C5 (counterexample): a 422 response whose body carries the detail
string `""` does contain a detail, yet the resulting error message is the
generic fallback, not the provided detail — JavaScript `detail || fallback`
treats the empty string as falsy. -/
theorem c5_counterexample :
    evaluateWaterQuality
        (TransportOutcome.failure ⟨some ⟨422, some ""⟩, true⟩)
      = Except.error evalFallbackMessage ∧
    evalFallbackMessage ≠ "" := by
  exact ⟨rfl, by decide⟩

/-- Claim C5 (amended): on a non-success response, the error message — and
hence the Error State set by `handleSubmit` — equals the service detail
string when the body contains a non-empty one (a 422 with detail "Invalid
pH value" sets Error State to exactly that), and equals the fallback
"An error occurred while evaluating water quality." when the detail is
absent or the empty string. -/
theorem c5_service_error_message (resp : HttpResponse) (s : FormState)
    (rq : Bool) :
    (∀ d, resp.detail = some d → d ≠ "" →
      evaluateWaterQuality (TransportOutcome.failure ⟨some resp, rq⟩)
        = Except.error d ∧
      (handleSubmit s
          (TransportOutcome.failure ⟨some resp, rq⟩)).finalState.error
        = d) ∧
    (resp.detail = none ∨ resp.detail = some "" →
      evaluateWaterQuality (TransportOutcome.failure ⟨some resp, rq⟩)
        = Except.error evalFallbackMessage ∧
      (handleSubmit s
          (TransportOutcome.failure ⟨some resp, rq⟩)).finalState.error
        = evalFallbackMessage) := by
  constructor
  · intro d hd hne
    have hmsg : classifyError ⟨some resp, rq⟩ = d := by
      rw [classifyError]
      simp only [serviceErrorMessage, hd, if_neg hne]
    refine ⟨by rw [evaluateWaterQuality, hmsg], ?_⟩
    rw [handleSubmit]
    simp only [evaluateWaterQuality, hmsg]
  · intro hd
    have hmsg : classifyError ⟨some resp, rq⟩ = evalFallbackMessage := by
      rw [classifyError]
      rcases hd with hd | hd <;> simp [serviceErrorMessage, hd]
    refine ⟨by rw [evaluateWaterQuality, hmsg], ?_⟩
    rw [handleSubmit]
    simp only [evaluateWaterQuality, hmsg]

/-- Claim C5 (amended) at concrete inputs: a 422 response with detail
"Invalid pH value" sets Error State to exactly that string, and a 500
response with no detail sets it to the fallback message. -/
theorem c5_service_error_message_witness :
    (handleSubmit ⟨[], "", false⟩
        (TransportOutcome.failure
          ⟨some ⟨422, some "Invalid pH value"⟩, true⟩)).finalState.error
      = "Invalid pH value" ∧
    (handleSubmit ⟨[], "", false⟩
        (TransportOutcome.failure ⟨some ⟨500, none⟩, true⟩)).finalState.error
      = evalFallbackMessage :=
  ⟨((c5_service_error_message ⟨422, some "Invalid pH value"⟩ ⟨[], "", false⟩
        true).1 "Invalid pH value" rfl (by decide)).2,
   ((c5_service_error_message ⟨500, none⟩ ⟨[], "", false⟩ true).2
      (Or.inl rfl)).2⟩

/-- Claim C6 (confirmed): when the request was dispatched but no response
arrived, `evaluateWaterQuality` fails with exactly "The server did not
respond. Please check your connection.", and `handleSubmit` stores exactly
that string in the Error State, for every starting form state. -/
theorem c6_no_response_message (s : FormState) :
    evaluateWaterQuality (TransportOutcome.failure ⟨none, true⟩)
      = Except.error
        "The server did not respond. Please check your connection." ∧
    (handleSubmit s
        (TransportOutcome.failure ⟨none, true⟩)).finalState.error
      = "The server did not respond. Please check your connection." ∧
    noResponseMessage
      = "The server did not respond. Please check your connection." := by
  exact ⟨rfl, rfl, rfl⟩

/-- Claim C7 (confirmed): every failure of `evaluateWaterQuality` falls in
exactly one of the three classes — service error, no-response, setup
failure — resolved in that priority order (`error.response` is checked
before `error.request`), and each failure is surfaced as a single
`Except.error` carrying the one message of its class. -/
theorem c7_failure_classification (e : AxiosError) :
    ((isServiceError e ∧ ¬ isNoResponse e ∧ ¬ isSetupFailure e) ∨
     (¬ isServiceError e ∧ isNoResponse e ∧ ¬ isSetupFailure e) ∨
     (¬ isServiceError e ∧ ¬ isNoResponse e ∧ isSetupFailure e)) ∧
    evaluateWaterQuality (TransportOutcome.failure e)
      = Except.error (classifyError e) ∧
    (∀ resp, e.response = some resp →
      classifyError e = serviceErrorMessage resp) ∧
    (isNoResponse e → classifyError e = noResponseMessage) ∧
    (isSetupFailure e → classifyError e = setupFailureMessage) := by
  obtain ⟨r, rq⟩ := e
  cases r <;> cases rq <;>
    simp [isServiceError, isNoResponse, isSetupFailure, classifyError,
      evaluateWaterQuality]

/-- Claim C7 at a concrete input: an error with a 500 response (and the
request present) is classified as a service error even though the request
flag is set, confirming the priority order. -/
theorem c7_failure_classification_witness :
    classifyError ⟨some ⟨500, none⟩, true⟩
      = serviceErrorMessage ⟨500, none⟩ ∧
    evaluateWaterQuality (TransportOutcome.failure ⟨some ⟨500, none⟩, true⟩)
      = Except.error (classifyError ⟨some ⟨500, none⟩, true⟩) :=
  ⟨(c7_failure_classification ⟨some ⟨500, none⟩, true⟩).2.2.1
      ⟨500, none⟩ rfl,
   (c7_failure_classification ⟨some ⟨500, none⟩, true⟩).2.1⟩

/-- Claim C8 (confirmed): every `handleSubmit` run first sets the loading
flag and clears the Error State; after the call resolves the loading flag
is false in both outcomes; on success the result is handed to `onResult`
and the error stays cleared; on failure no result is delivered and the
Error State holds the failure's message. -/
theorem c8_submit_lifecycle (s : FormState) (o : TransportOutcome) :
    (handleSubmit s o).startState.loading = true ∧
    (handleSubmit s o).startState.error = "" ∧
    (handleSubmit s o).finalState.loading = false ∧
    (∀ r, o = TransportOutcome.success r →
      (handleSubmit s o).delivered = some r ∧
      (handleSubmit s o).finalState.error = "") ∧
    (∀ e, o = TransportOutcome.failure e →
      (handleSubmit s o).delivered = none ∧
      (handleSubmit s o).finalState.error = classifyError e) := by
  cases o <;> simp [handleSubmit, evaluateWaterQuality]

/-- Claim C8 at concrete inputs: a successful submission from a state with
a stale error delivers the result with the error cleared and loading
false. -/
theorem c8_submit_lifecycle_witness :
    (handleSubmit ⟨[], "old failure", false⟩
        (TransportOutcome.success sampleResult)).delivered
      = some sampleResult ∧
    (handleSubmit ⟨[], "old failure", false⟩
        (TransportOutcome.success sampleResult)).finalState.error = "" :=
  (c8_submit_lifecycle ⟨[], "old failure", false⟩
      (TransportOutcome.success sampleResult)).2.2.2.1 sampleResult rfl

/-- Claim C9 (confirmed): both parameter schemas expose exactly the fifteen
parameter definitions whose keys, in order, are Temperature, pH, Turbidity,
DissolvedOxygen, Conductivity, TotalDissolvedSolids, Nitrate, Phosphate,
TotalColiforms, Ecoli, BOD, COD, Hardness, Alkalinity, Iron; the keys are
pairwise distinct. (The lists are constants of the embedding — no operation
in the development modifies them.) -/
theorem c9_parameter_schema :
    parameters.map ParameterDef.name = parameterKeys ∧
    parameters_v2.map ParameterDefNL.name = parameterKeys ∧
    parameterKeys.length = 15 ∧
    parameterKeys.Nodup := by
  refine ⟨by decide, by decide, by decide, by decide⟩

/-- Claim C10 (confirmed): when a submission fails, App's stored
`evaluationResult` is left exactly as it was (a previously delivered result
stays rendered), `onResult` is never invoked, only the Error State and the
loading flag change, and the form data is untouched. -/
theorem c10_failure_preserves_result (a : AppState) (s : FormState)
    (e : AxiosError) (r0 : EvalResult)
    (h : a.evaluationResult = some r0) :
    (appStep a s (TransportOutcome.failure e)).1.evaluationResult
      = some r0 ∧
    (appStep a s (TransportOutcome.failure e)).2.delivered = none ∧
    (appStep a s (TransportOutcome.failure e)).2.finalState.error
      = classifyError e ∧
    (appStep a s (TransportOutcome.failure e)).2.finalState.loading
      = false ∧
    (appStep a s (TransportOutcome.failure e)).2.finalState.formData
      = s.formData := by
  refine ⟨?_, ?_, ?_, ?_, ?_⟩ <;>
    simp [appStep, handleSubmit, evaluateWaterQuality, h]

/-- Claim C10 at concrete inputs: after a successful evaluation, a second
submission that dies with no response keeps the stored result and surfaces
the no-response message. -/
theorem c10_failure_preserves_result_witness :
    (appStep ⟨some sampleResult⟩ ⟨[], "", false⟩
        (TransportOutcome.failure ⟨none, true⟩)).1.evaluationResult
      = some sampleResult ∧
    (appStep ⟨some sampleResult⟩ ⟨[], "", false⟩
        (TransportOutcome.failure ⟨none, true⟩)).2.finalState.error
      = classifyError ⟨none, true⟩ :=
  ⟨(c10_failure_preserves_result ⟨some sampleResult⟩ ⟨[], "", false⟩
      ⟨none, true⟩ sampleResult rfl).1,
   (c10_failure_preserves_result ⟨some sampleResult⟩ ⟨[], "", false⟩
      ⟨none, true⟩ sampleResult rfl).2.2.1⟩

end WQM
